import Mathlib

/-!
Verification of the FinTrack personal-finance dashboard data layer
(`connect.py`) against its natural-language specification.

The Python source is shallowly embedded: pure computations become Lean
functions over `List`/`Rat`; the pandas in-place date conversion inside
`get_monthly_data` is made explicit by returning the updated sequence
alongside the value; the `try/except` structure of `save_user_data` is
modelled with `Except`.
-/

namespace FinTrack

/-! ## SHA-256 (hashlib.sha256), needed for `hash_email` -/

/-- The modulus 2^32 for 32-bit words. -/
def M32 : Nat := 4294967296

/-- Modular 32-bit addition. -/
def add32 (a b : Nat) : Nat := (a + b) % M32

/-- Right rotation of a 32-bit word. -/
def rotr32 (x n : Nat) : Nat := ((x >>> n) ||| (x <<< (32 - n))) % M32

/-- SHA-256 Ch function; ¬x is taken as xor with the 32-bit mask. -/
def ch32 (x y z : Nat) : Nat := (x &&& y) ^^^ ((x ^^^ 4294967295) &&& z)

/-- SHA-256 Maj function. -/
def maj32 (x y z : Nat) : Nat := (x &&& y) ^^^ (x &&& z) ^^^ (y &&& z)

/-- SHA-256 big Sigma 0. -/
def bsig0 (x : Nat) : Nat := rotr32 x 2 ^^^ rotr32 x 13 ^^^ rotr32 x 22

/-- SHA-256 big Sigma 1. -/
def bsig1 (x : Nat) : Nat := rotr32 x 6 ^^^ rotr32 x 11 ^^^ rotr32 x 25

/-- SHA-256 small sigma 0. -/
def ssig0 (x : Nat) : Nat := rotr32 x 7 ^^^ rotr32 x 18 ^^^ (x >>> 3)

/-- SHA-256 small sigma 1. -/
def ssig1 (x : Nat) : Nat := rotr32 x 17 ^^^ rotr32 x 19 ^^^ (x >>> 10)

/-- The 64 SHA-256 round constants of FIPS 180-4, written in decimal. -/
def K256 : List Nat :=
  [1116352408, 1899447441, 3049323471, 3921009573, 961987163, 1508970993,
   2453635748, 2870763221, 3624381080, 310598401, 607225278, 1426881987,
   1925078388, 2162078206, 2614888103, 3248222580, 3835390401, 4022224774,
   264347078, 604807628, 770255983, 1249150122, 1555081692, 1996064986,
   2554220882, 2821834349, 2952996808, 3210313671, 3336571891, 3584528711,
   113926993, 338241895, 666307205, 773529912, 1294757372, 1396182291,
   1695183700, 1986661051, 2177026350, 2456956037, 2730485921, 2820302411,
   3259730800, 3345764771, 3516065817, 3600352804, 4094571909, 275423344,
   430227734, 506948616, 659060556, 883997877, 958139571, 1322822218,
   1537002063, 1747873779, 1955562222, 2024104815, 2227730452, 2361852424,
   2428436474, 2756734187, 3204031479, 3329325298]

/-- The SHA-256 initial hash value of FIPS 180-4, written in decimal. -/
def H256 : List Nat :=
  [1779033703, 3144134277, 1013904242, 2773480762, 1359893119, 2600822924,
   528734635, 1541459225]

/-- Big-endian 4-byte word from four bytes. -/
def bytesToWords : List Nat → List Nat
  | a :: b :: c :: d :: rest => (((a * 256 + b) * 256 + c) * 256 + d) :: bytesToWords rest
  | _ => []

/-- Big-endian 8-byte rendering of a Nat (for the length field of the padding). -/
def be64 (n : Nat) : List Nat :=
  [(n >>> 56) % 256, (n >>> 48) % 256, (n >>> 40) % 256, (n >>> 32) % 256,
   (n >>> 24) % 256, (n >>> 16) % 256, (n >>> 8) % 256, n % 256]

/-- Big-endian 4-byte rendering of a 32-bit word. -/
def be32 (n : Nat) : List Nat :=
  [(n >>> 24) % 256, (n >>> 16) % 256, (n >>> 8) % 256, n % 256]

/-- SHA-256 message padding: append 0x80, zero bytes, then the 64-bit bit length. -/
def sha256pad (msg : List Nat) : List Nat :=
  let L := msg.length
  let k := (119 - L % 64) % 64
  msg ++ [128] ++ List.replicate k 0 ++ be64 (8 * L)

/-- Extend 16 message-schedule words to 64. -/
def sha256schedule (w16 : List Nat) : List Nat :=
  (List.range 48).foldl
    (fun w _ =>
      let n := w.length
      w ++ [add32 (add32 (ssig1 (w.getD (n - 2) 0)) (w.getD (n - 7) 0))
              (add32 (ssig0 (w.getD (n - 15) 0)) (w.getD (n - 16) 0))])
    w16

/-- One SHA-256 round on the state [a,b,c,d,e,f,g,h]. -/
def sha256round (k w : Nat) (s : List Nat) : List Nat :=
  match s with
  | [a, b, c, d, e, f, g, h] =>
    let t1 := add32 (add32 (add32 h (bsig1 e)) (add32 (ch32 e f g) k)) w
    let t2 := add32 (bsig0 a) (maj32 a b c)
    [add32 t1 t2, a, b, c, add32 d t1, e, f, g]
  | s => s

/-- SHA-256 compression of one 512-bit block (16 words) into the hash state. -/
def sha256compress (hs : List Nat) (w16 : List Nat) : List Nat :=
  let w := sha256schedule w16
  let s := (K256.zip w).foldl (fun s kw => sha256round kw.1 kw.2 s) hs
  List.zipWith add32 hs s

/-- Split a byte list into 64-byte chunks; `fuel` is the number of chunks
(the padded message length divided by 64). -/
def chunks64 : Nat → List Nat → List (List Nat)
  | 0, _ => []
  | fuel + 1, l => l.take 64 :: chunks64 fuel (l.drop 64)

/-- SHA-256 digest (32 bytes) of a byte message. -/
def sha256bytes (msg : List Nat) : List Nat :=
  let padded := sha256pad msg
  let final := (chunks64 (padded.length / 64) padded).foldl
    (fun hs block => sha256compress hs (bytesToWords block)) H256
  final.flatMap be32

/-- A hex digit character (lowercase), as produced by hexdigest. -/
def hexChar (n : Nat) : Char :=
  if n < 10 then Char.ofNat (48 + n) else Char.ofNat (87 + n)

/-- Two lowercase hex characters for one byte. -/
def byteHex (b : Nat) : List Char := [hexChar (b / 16), hexChar (b % 16)]

/-- hashlib's hexdigest: lowercase hex rendering of the digest bytes. -/
def hexdigest (bytes : List Nat) : String := String.mk (bytes.flatMap byteHex)

/-- UTF-8 encoding of one character (Python str.encode uses UTF-8). -/
def utf8EncodeChar (c : Char) : List Nat :=
  let n := c.toNat
  if n < 128 then [n]
  else if n < 2048 then [192 + n / 64, 128 + n % 64]
  else if n < 65536 then [224 + n / 4096, 128 + (n / 64) % 64, 128 + n % 64]
  else [240 + n / 262144, 128 + (n / 4096) % 64, 128 + (n / 64) % 64, 128 + n % 64]

/-- Embeds `hash_email` (connect.py lines 36-37):
`hashlib.sha256(email.encode()).hexdigest()`. Emails are lists of characters. -/
def hash_email (email : List Char) : String :=
  hexdigest (sha256bytes (email.flatMap utf8EncodeChar))

/-! ## Email normalization (authenticate_user, connect.py lines 46-49) -/

/-- Python str whitespace test, restricted to the ASCII whitespace characters. -/
def pyIsSpace (c : Char) : Bool :=
  c = ' ' || c = '\t' || c = '\n' || c = '\r' || c = '\x0b' || c = '\x0c'

/-- Python str.strip(): drop whitespace from both ends. -/
def pyStrip (l : List Char) : List Char :=
  ((l.dropWhile pyIsSpace).reverse.dropWhile pyIsSpace).reverse

/-- Python str.lower(), character-wise (ASCII letters; emails here are ASCII). -/
def pyLower (l : List Char) : List Char := l.map Char.toLower

/-- The normalization `email.lower().strip()` applied by `authenticate_user`
(connect.py line 48) before hashing. -/
def normalize (email : List Char) : List Char := pyStrip (pyLower email)

/-- The UserKey of an email as `authenticate_user` derives it (connect.py
lines 48-49): normalize first, then `hash_email`. -/
def user_key (email : List Char) : String := hash_email (normalize email)

/-! ## Data model -/

/-- A date cell of a pandas column: either the raw calendar date as entered
(a string or datetime.date, constructor `.str`) or a parsed Timestamp
(constructor `.dt`), the form `pd.to_datetime` produces. -/
inductive PyDate where
  | str (y m d : Nat)
  | dt (y m d : Nat)
  deriving DecidableEq

/-- The effect of `pd.to_datetime` on one date cell: parses a raw date,
leaves a Timestamp. -/
def to_datetime : PyDate → PyDate
  | .str y m d => .dt y m d
  | .dt y m d => .dt y m d

/-- The calendar day a date cell denotes, independent of its representation. -/
def PyDate.ymd : PyDate → Nat × Nat × Nat
  | .str y m d => (y, m, d)
  | .dt y m d => (y, m, d)

/-- One row of the expenses frame (columns date, category, amount, description). -/
structure Expense where
  date : PyDate
  category : String
  amount : ℚ
  description : String
  deriving DecidableEq

/-- One row of the income frame (columns date, source, amount, frequency). -/
structure Income where
  date : PyDate
  source : String
  amount : ℚ
  frequency : String
  deriving DecidableEq

/-- The user profile dict (connect.py lines 98-104 / 182-188). -/
structure UserProfile where
  name : String
  email : String
  member_since : String
  currency : String
  language : String
  deriving DecidableEq

/-- One savings goal dict. -/
structure SavingsGoal where
  name : String
  target : ℚ
  current : ℚ
  deadline : String
  deriving DecidableEq

/-- The per-user financial data held in st.session_state. -/
structure SessionData where
  expenses : List Expense
  income : List Income
  budget : List (String × ℚ)
  savings_goals : List SavingsGoal
  user_profile : UserProfile
  deriving DecidableEq

/-! ## save_user_data (connect.py lines 124-174) -/

/-- The environment a save_user_data call runs in: whether a db handle was
stored and mongodb_available is set, and whether the serialization loop or
the replace_one write raise. -/
structure SaveEnv where
  db_connected : Bool
  mongodb_available : Bool
  serialize_fails : Bool
  write_fails : Bool

/-- The body of save_user_data's try block (lines 127-170): the
date-serialization loop, then either the MongoDB upsert (which may raise)
or the session-state no-op branch, ending in `return True`. -/
def save_body (env : SaveEnv) : Except String Bool :=
  if env.serialize_fails then Except.error "serialize error"
  else if env.db_connected && env.mongodb_available then
    if env.write_fails then Except.error "write error" else Except.ok true
  else Except.ok true

/-- Embeds save_user_data (lines 124-174): the try body wrapped by the
except handler, which prints and returns True. -/
def save_user_data (env : SaveEnv) : Except String Bool :=
  match save_body env with
  | Except.ok b => Except.ok b
  | Except.error _ => Except.ok true

/-! ## get_monthly_data (connect.py lines 260-265) -/

/-- Embeds get_monthly_data on the expenses frame. The assignment
`df[date_col] = pd.to_datetime(df[date_col])` mutates the caller's frame,
so the updated sequence is returned alongside the summed amount; an empty
frame returns 0 before that assignment runs. The source function is
generic over the frame; `get_monthly_data_income` is its instance at the
income frame. -/
def get_monthly_data (df : List Expense) : ℚ × List Expense :=
  if df = [] then (0, df)
  else
    let df' := df.map fun e => { e with date := to_datetime e.date }
    ((df'.map fun e => e.amount).sum, df')

/-- get_monthly_data applied to the income frame. -/
def get_monthly_data_income (df : List Income) : ℚ × List Income :=
  if df = [] then (0, df)
  else
    let df' := df.map fun e => { e with date := to_datetime e.date }
    ((df'.map fun e => e.amount).sum, df')

/-! ## groupby aggregation (budget_page line 519, analytics, insights) -/

/-- Sum of the amounts of the rows whose key equals `c`. -/
def sumFor (key : Expense → String) (rows : List Expense) (c : String) : ℚ :=
  ((rows.filter fun r => key r == c).map fun r => r.amount).sum

/-- Embeds pandas `groupby(col)['amount'].sum()`: one entry per distinct
key, keys in sorted order (pandas sorts group keys), each mapped to the
summed amount of its group. -/
def groupby_sum (key : Expense → String) (rows : List Expense) : List (String × ℚ) :=
  (List.insertionSort (· ≤ ·) (rows.map key).dedup).map fun c => (c, sumFor key rows c)

/-- Embeds budget_page lines 518-521: the groupby-to-dict when the expenses
frame is nonempty, the empty dict otherwise. -/
def expenses_by_category (expenses : List Expense) : List (String × ℚ) :=
  if expenses = [] then [] else groupby_sum (fun e => e.category) expenses

/-! ## budget_page budget table (connect.py lines 523-551) -/

/-- One entry of budget_data (lines 527-533). -/
structure BudgetRow where
  category : String
  budget : ℚ
  spent : ℚ
  remaining : ℚ
  usagePercent : ℚ
  deriving DecidableEq

/-- Embeds the budget_data loop (lines 523-533): one row per entry of the
budget dict, with spent looked up in expenses_by_category (default 0). -/
def budget_rows (budget : List (String × ℚ)) (expenses : List Expense) : List BudgetRow :=
  budget.map fun cb =>
    let spent := (List.lookup cb.1 (expenses_by_category expenses)).getD 0
    { category := cb.1
      budget := cb.2
      spent := spent
      remaining := cb.2 - spent
      usagePercent := if (cb.2 : ℚ) > (0 : ℚ) then spent / cb.2 * 100 else 0 }

/-- The three-tier classification rendered for a budget row. -/
inductive BudgetClass where
  | overBudget
  | warning
  | onTrack
  deriving DecidableEq

/-- Embeds the color coding of lines 546-551: error when Usage % > 100,
elif warning when > 80, else success. -/
def budget_row_status (row : BudgetRow) : BudgetClass :=
  if row.usagePercent > 100 then BudgetClass.overBudget
  else if row.usagePercent > 80 then BudgetClass.warning
  else BudgetClass.onTrack

/-! ## deletion (connect.py lines 469-475 and 487-493) -/

/-- Embeds `df.drop(idx, inplace=True)` followed by
`df.reset_index(drop=True, inplace=True)` on a frame whose index is the
default RangeIndex: the row whose positional label equals idx is removed
and positions are renumbered without gaps. -/
def deleteAt {α : Type} (l : List α) (idx : Nat) : List α :=
  (l.enum.filter fun p => p.1 != idx).map fun p => p.2

/-! ## savings rate (dashboard_page 346-349, analytics_page 674-677) -/

/-- Embeds the savings-rate computation: (income - expenses) / income * 100
when income > 0, else 0 (both call sites compute the same expression). -/
def savings_rate (monthly_income monthly_expenses : ℚ) : ℚ :=
  if monthly_income > 0 then (monthly_income - monthly_expenses) / monthly_income * 100
  else 0

/-! ## profile update (profile_page, connect.py lines 698-708) -/

/-- Embeds the profile update of line 704: only the name field is assigned
(`st.session_state.user_profile['name'] = name`); the email and
member_since inputs are disabled and never written back. -/
def update_profile (p : UserProfile) (name : String) : UserProfile :=
  { p with name := name }

/-! ## new-user defaults and loading (connect.py lines 68-122, 176-188) -/

/-- Modelled from the spec: DEFAULT_BUDGET lives in config.py, which is not
among the sources; the spec fixes "8 fixed categories with preset
allocations", and load_user_data's in-source fallback (lines 85-89) lists
these eight categories with these allocations. -/
def DEFAULT_BUDGET : List (String × ℚ) :=
  [("Food", 5000), ("Transportation", 3000), ("Entertainment", 2000),
   ("Shopping", 4000), ("Utilities", 2500), ("Medical", 1500),
   ("Education", 2000), ("Miscellaneous", 1000)]

/-- Modelled from the spec: DEFAULT_SAVINGS_GOALS lives in config.py, not
among the sources; the spec fixes "two seeded entries", and
load_user_data's in-source fallback (lines 92-95) lists these two goals. -/
def DEFAULT_SAVINGS_GOALS : List SavingsGoal :=
  [{ name := "Emergency Fund", target := 50000, current := 15000, deadline := "2024-12-31" },
   { name := "Vacation", target := 25000, current := 8000, deadline := "2024-08-15" }]

/-- Python `email.split('@')[0]`: the prefix before the first '@'
(the whole string when '@' is absent). -/
def emailLocalPart (email : List Char) : List Char := email.takeWhile fun c => c != '@'

/-- Embeds initialize_new_user (lines 176-188); `today` stands for
`datetime.now().strftime('%Y-%m-%d')` at creation time. -/
def init_new_user (user_email : List Char) (today : String) : SessionData :=
  { expenses := []
    income := []
    budget := DEFAULT_BUDGET
    savings_goals := DEFAULT_SAVINGS_GOALS
    user_profile :=
      { name := if user_email = [] then "User" else String.mk (emailLocalPart user_email)
        email := String.mk user_email
        member_since := today
        currency := "₹"
        language := "English" } }

/-- Embeds the store-unavailable branch of load_user_data (lines 111-115):
with MongoDB unavailable the session data is used as is, initialized with
the new-user defaults when absent. -/
def load_unavailable (existing : Option SessionData) (user_email : List Char)
    (today : String) : SessionData :=
  match existing with
  | some s => s
  | none => init_new_user user_email today

/-- Embeds add_expense (lines 232-244): appends one row to the expenses
frame; the subsequent save_user_data call does not change the frames. -/
def add_expense (s : SessionData) (date : PyDate) (category : String) (amount : ℚ)
    (description : String) : SessionData :=
  { s with expenses := s.expenses ++
      [{ date := date, category := category, amount := amount, description := description }] }

/-! ## generate_ai_insights (connect.py lines 267-295) -/

/-- pandas `Series.idxmax` paired with `.max()` on a key-value series: the
first entry holding the maximal value. -/
def seriesArgmax : List (String × ℚ) → Option (String × ℚ)
  | [] => none
  | kv :: rest =>
    match seriesArgmax rest with
    | none => some kv
    | some kv' => if kv'.2 > kv.2 then some kv' else some kv

/-- Day of week (0 = Sunday) of a calendar date, by Sakamoto's method. -/
def dayOfWeek (y m d : Nat) : Nat :=
  let t := [0, 3, 2, 5, 0, 3, 5, 1, 4, 6, 2, 4]
  let y := if m < 3 then y - 1 else y
  (y + y / 4 - y / 100 + y / 400 + t.getD (m - 1) 0 + d) % 7

/-- pandas `dt.day_name()` for one date cell. -/
def day_name (dt : PyDate) : String :=
  (["Sunday", "Monday", "Tuesday", "Wednesday", "Thursday", "Friday", "Saturday"]).getD
    (dayOfWeek dt.ymd.1 dt.ymd.2.1 dt.ymd.2.2) ""

/-- The observations generate_ai_insights composes; the textual templates of
lines 277-293 are presentation and are carried as constructors with their
computed payloads. -/
inductive Insight where
  | topSpending (category : String) (amount : ℚ)
  | busiestDay (day : String)
  | increaseSavings
  | greatSavings (rate : ℚ)
  deriving DecidableEq

/-- Embeds generate_ai_insights (lines 267-295): nothing is appended when
the expenses frame is empty; otherwise the top-category and busiest-day
observations, then the savings observation when monthly income > 0. The
`getD` defaults are unreachable under the nonempty guard (pandas idxmax
would raise on an empty frame). -/
def generate_ai_insights (expenses : List Expense) (income : List Income) : List Insight :=
  if expenses = [] then []
  else
    let expenses_df := expenses.map fun e => { e with date := to_datetime e.date }
    let top := (seriesArgmax (groupby_sum (fun e => e.category) expenses_df)).getD ("", 0)
    let busiest := (seriesArgmax (groupby_sum (fun e => day_name e.date) expenses_df)).getD ("", 0)
    let monthly_expenses := (get_monthly_data expenses).1
    let monthly_income := (get_monthly_data_income income).1
    [Insight.topSpending top.1 top.2, Insight.busiestDay busiest.1] ++
      (if monthly_income > 0 then
        if (monthly_income - monthly_expenses) / monthly_income * 100 < 20 then
          [Insight.increaseSavings]
        else [Insight.greatSavings ((monthly_income - monthly_expenses) / monthly_income * 100)]
      else [])

/-- A concrete expense row used by the witness theorems. -/
def sampleExpense : Expense :=
  { date := PyDate.str 2024 1 5, category := "Food", amount := 1200, description := "" }

/-- A concrete income row used by the witness theorems. -/
def sampleIncome : Income :=
  { date := PyDate.str 2024 1 2, source := "Salary", amount := 100, frequency := "Monthly" }

/-! ## Helper lemmas -/

/-- Parsing a date cell does not change the calendar day it denotes. -/
theorem to_datetime_ymd (d : PyDate) : (to_datetime d).ymd = d.ymd := by
  cases d <;> rfl

/-- The date update performed inside get_monthly_data leaves amounts alone. -/
theorem amount_update (e : Expense) :
    ({ e with date := to_datetime e.date } : Expense).amount = e.amount := rfl

/-- The date update leaves income amounts alone. -/
theorem amount_update_income (e : Income) :
    ({ e with date := to_datetime e.date } : Income).amount = e.amount := rfl

/-- The value component of get_monthly_data is the plain amount total. -/
theorem get_monthly_data_val (df : List Expense) :
    (get_monthly_data df).1 = (df.map fun e => e.amount).sum := by
  cases df with
  | nil => rfl
  | cons x xs =>
    simp only [get_monthly_data, List.map_map, if_neg (List.cons_ne_nil x xs)]
    rfl

/-- The value component of get_monthly_data_income is the plain amount total. -/
theorem get_monthly_data_income_val (df : List Income) :
    (get_monthly_data_income df).1 = (df.map fun e => e.amount).sum := by
  cases df with
  | nil => rfl
  | cons x xs =>
    simp only [get_monthly_data_income, List.map_map, if_neg (List.cons_ne_nil x xs)]
    rfl

/-- Lookup in an association list built by tagging each key with `f`. -/
theorem lookup_map_self (f : String → ℚ) (keys : List String) (c : String) :
    List.lookup c (keys.map fun k => (k, f k)) = if c ∈ keys then some (f c) else none := by
  induction keys with
  | nil => simp
  | cons k ks ih =>
    by_cases h : c = k
    · subst h
      simp [List.lookup_cons]
    · have hb : (c == k) = false := by simpa using h
      simp [List.lookup_cons, hb, ih, h]

/-- A category absent from the rows has a zero filter-sum. -/
theorem sumFor_eq_zero (key : Expense → String) (rows : List Expense) (c : String)
    (h : c ∉ rows.map key) : sumFor key rows c = 0 := by
  unfold sumFor
  have hf : rows.filter (fun r => key r == c) = [] := by
    rw [List.filter_eq_nil_iff]
    intro a ha hk
    exact h (List.mem_map.mpr ⟨a, ha, by simpa using hk⟩)
  simp [hf]

/-- The dict lookup with default 0 over the groupby equals the filter-sum. -/
theorem lookupD_groupby (key : Expense → String) (rows : List Expense) (c : String) :
    (List.lookup c (groupby_sum key rows)).getD 0 = sumFor key rows c := by
  unfold groupby_sum
  rw [lookup_map_self]
  split
  · rfl
  · next h =>
    have h2 : c ∉ rows.map key := fun hc =>
      h ((List.mem_insertionSort (fun a b => a ≤ b)).mpr (List.mem_dedup.mpr hc))
    simp [sumFor_eq_zero key rows c h2]

/-- The empty-frame branch of budget_page's groupby collapses. -/
theorem expenses_by_category_eq (rows : List Expense) :
    expenses_by_category rows = groupby_sum (fun e => e.category) rows := by
  unfold expenses_by_category
  split
  · next h => subst h; rfl
  · rfl

/-- Labels strictly above `m` all survive the filter used by deleteAt. -/
theorem filter_enumFrom_of_lt {α : Type} (l : List α) (n m : Nat) (h : m < n) :
    (List.enumFrom n l).filter (fun p => p.1 != m) = List.enumFrom n l := by
  induction l generalizing n with
  | nil => rfl
  | cons x xs ih =>
    have hb : (n != m) = true := by
      simp only [bne_iff_ne, ne_eq]
      omega
    simp only [List.enumFrom_cons, List.filter_cons, hb, if_pos]
    rw [ih (n + 1) (Nat.lt_succ_of_lt h)]

/-- Dropping label `n + i` from an enumeration starting at `n` removes the
element at position `i`. -/
theorem deleteAt_enumFrom {α : Type} (l : List α) (n i : Nat) :
    ((List.enumFrom n l).filter (fun p => p.1 != n + i)).map Prod.snd =
      l.take i ++ l.drop (i + 1) := by
  induction l generalizing n i with
  | nil => simp
  | cons x xs ih =>
    cases i with
    | zero =>
      have hb : (n != n + 0) = false := by simp
      simp only [List.enumFrom_cons, List.filter_cons, hb, if_neg Bool.false_ne_true]
      rw [filter_enumFrom_of_lt xs (n + 1) (n + 0) (by omega)]
      simp [List.enumFrom_map_snd]
    | succ j =>
      have hb : (n != n + (j + 1)) = true := by
        simp only [bne_iff_ne, ne_eq]
        omega
      simp only [List.enumFrom_cons, List.filter_cons, hb, if_pos, List.map_cons]
      have harith : n + (j + 1) = (n + 1) + j := by omega
      rw [harith, ih (n + 1) j]
      simp

/-- deleteAt is removal of the element at the given position. -/
theorem deleteAt_eq_take_drop {α : Type} (l : List α) (idx : Nat) :
    deleteAt l idx = l.take idx ++ l.drop (idx + 1) := by
  have h := deleteAt_enumFrom l 0 idx
  simpa [deleteAt, List.enum] using h

/-! ## Claim theorems -/

/-- C1: save_user_data never raises to its caller and reports success
(True) in every case — when the store is unavailable it is a no-op that
still returns True, and when a write fails after a successful connect the
exception is swallowed and True is still returned, so the caller cannot
detect persistence failure from the return value. -/
theorem c1_save_user_data_always_ok (env : SaveEnv) :
    save_user_data env = Except.ok true := by
  rcases env with ⟨dc, ma, sf, wf⟩
  cases dc <;> cases ma <;> cases sf <;> cases wf <;> rfl

/-- C3: get_monthly_data returns the total of the amount field over the
entire provided sequence — no date filtering of any kind — and 0 for an
empty sequence, on both the expense and the income frame. -/
theorem c3_get_monthly_data_total (df : List Expense) (dg : List Income) :
    (get_monthly_data df).1 = (df.map fun e => e.amount).sum ∧
    (get_monthly_data_income dg).1 = (dg.map fun e => e.amount).sum ∧
    (get_monthly_data ([] : List Expense)).1 = 0 := by
  exact ⟨get_monthly_data_val df, get_monthly_data_income_val dg, rfl⟩

/-- C6: the savings rate is (income - expenses) / income * 100 when
income > 0 and 0 when income ≤ 0 (a defined result, not an error), with
savings_rate 0 _ = 0 and savings_rate 100 80 = 20. -/
theorem c6_savings_rate_spec (income expenses : ℚ) :
    (income > 0 → savings_rate income expenses = (income - expenses) / income * 100) ∧
    (income ≤ 0 → savings_rate income expenses = 0) ∧
    savings_rate 0 expenses = 0 ∧
    savings_rate 100 80 = 20 := by
  refine ⟨fun h => ?_, fun h => ?_, ?_, ?_⟩
  · simp [savings_rate, h]
  · simp [savings_rate, not_lt_of_ge (by exact_mod_cast h)]
  · simp [savings_rate]
  · norm_num [savings_rate]

/-- C6 witness: the guarded formula at income 100, expenses 80, and the
nonpositive-income branch at income -5. -/
theorem c6_savings_rate_spec_witness :
    savings_rate 100 80 = (100 - 80) / 100 * 100 ∧ savings_rate (-5) 3 = 0 :=
  ⟨(c6_savings_rate_spec 100 80).1 (by norm_num),
   (c6_savings_rate_spec (-5) 3).2.1 (by norm_num)⟩

/-- C8: after any sequence of profile updates, email and member_since are
equal to their values at creation — only the name field is ever written. -/
theorem c8_update_profile_frame (p : UserProfile) (patches : List String) :
    (patches.foldl update_profile p).email = p.email ∧
    (patches.foldl update_profile p).member_since = p.member_since := by
  induction patches generalizing p with
  | nil => exact ⟨rfl, rfl⟩
  | cons a t ih => simpa [update_profile] using ih { p with name := a }

/-- The if/elif/else rendering thresholds, as exclusive characterizations. -/
theorem budget_row_status_iff (r : BudgetRow) :
    (budget_row_status r = BudgetClass.overBudget ↔ r.usagePercent > 100) ∧
    (budget_row_status r = BudgetClass.warning ↔
      80 < r.usagePercent ∧ r.usagePercent ≤ 100) ∧
    (budget_row_status r = BudgetClass.onTrack ↔ r.usagePercent ≤ 80) := by
  unfold budget_row_status
  split_ifs with h1 h2
  · refine ⟨iff_of_true rfl h1, iff_of_false (by decide) ?_, iff_of_false (by decide) ?_⟩
    · rintro ⟨_, hle⟩
      linarith
    · intro hle
      linarith
  · push_neg at h1
    refine ⟨iff_of_false (by decide) ?_, iff_of_true rfl ⟨h2, h1⟩, iff_of_false (by decide) ?_⟩
    · intro hgt
      linarith
    · intro hle
      linarith
  · push_neg at h1 h2
    refine ⟨iff_of_false (by decide) ?_, iff_of_false (by decide) ?_, iff_of_true rfl h2⟩
    · intro hgt
      linarith
    · rintro ⟨hgt, _⟩
      linarith

set_option maxRecDepth 100000 in
/-- C2 counterexample: the hashing function itself does not incorporate the
normalization — two emails differing only in surrounding whitespace are
mapped by hash_email to different keys (normalization happens in
authenticate_user, before hash_email is called). -/
theorem c2_hash_email_does_not_normalize :
    hash_email (" a@b.com").data ≠ hash_email ("a@b.com").data := by decide

/-- C2 (amended): the UserKey derivation normalizes in authenticate_user
before hashing, so any two emails with equal normalizations — in
particular emails differing only in case or surrounding whitespace — map
to the same key. -/
theorem c2_user_key_of_normalize (e1 e2 : List Char)
    (h : normalize e1 = normalize e2) : user_key e1 = user_key e2 := by
  unfold user_key
  rw [h]

set_option maxRecDepth 100000 in
/-- C2 witness: " A@b.com" and "a@b.com" normalize identically and hence
receive the same user key. -/
theorem c2_user_key_of_normalize_witness :
    user_key (" A@b.com").data = user_key ("a@b.com").data :=
  c2_user_key_of_normalize (" A@b.com").data ("a@b.com").data (by decide)

/-- C4: the budget table has exactly one row per category of the budget
mapping, in order, regardless of which categories appear in the expenses;
spent is the summed amount of that category's expenses (0 when absent),
remaining = budgeted - spent, usagePercent = spent/budgeted*100 when
budgeted > 0 and 0 otherwise; the rendered status is over-budget exactly
when usagePercent > 100, warning exactly when 80 < usagePercent ≤ 100,
and on-track exactly when usagePercent ≤ 80. -/
theorem c4_budget_rows_spec (budget : List (String × ℚ)) (expenses : List Expense) :
    budget_rows budget expenses = (budget.map fun cb =>
      { category := cb.1
        budget := cb.2
        spent := sumFor (fun e => e.category) expenses cb.1
        remaining := cb.2 - sumFor (fun e => e.category) expenses cb.1
        usagePercent := if cb.2 > 0 then
            sumFor (fun e => e.category) expenses cb.1 / cb.2 * 100
          else 0 }) ∧
    ((budget_rows budget expenses).map fun r => r.category) = budget.map Prod.fst ∧
    (budget_rows budget expenses).length = budget.length ∧
    ∀ r, r ∈ budget_rows budget expenses →
      (budget_row_status r = BudgetClass.overBudget ↔ r.usagePercent > 100) ∧
      (budget_row_status r = BudgetClass.warning ↔
        80 < r.usagePercent ∧ r.usagePercent ≤ 100) ∧
      (budget_row_status r = BudgetClass.onTrack ↔ r.usagePercent ≤ 80) := by
  refine ⟨?_, ?_, ?_, fun r _ => budget_row_status_iff r⟩
  · unfold budget_rows
    refine List.map_congr_left fun cb _ => ?_
    rw [expenses_by_category_eq, lookupD_groupby]
  · unfold budget_rows
    rw [List.map_map]
    exact List.map_congr_left fun cb _ => rfl
  · simp [budget_rows]

set_option maxRecDepth 100000 in
/-- C4 witness: with budget Food ↦ 1000 and a single Food expense of 1200
the produced row is over-budget, instantiating the membership
hypothesis. -/
theorem c4_budget_rows_spec_witness :
    budget_row_status ⟨"Food", 1000, 1200, -200, 120⟩ = BudgetClass.overBudget ↔
      (⟨"Food", 1000, 1200, -200, 120⟩ : BudgetRow).usagePercent > 100 :=
  ((c4_budget_rows_spec [("Food", 1000)] [sampleExpense]).2.2.2
    ⟨"Food", 1000, 1200, -200, 120⟩ (by with_unfolding_all decide)).1

/-- C5: deleting at a valid index removes exactly the element at that
index: the length decreases by exactly 1, elements before the index keep
their positions, and every subsequent element shifts down by one — the
sequence collapses with no gaps and relative order preserved. -/
theorem c5_deleteAt_spec {α : Type} (l : List α) (idx : Nat) (h : idx < l.length) :
    (deleteAt l idx).length = l.length - 1 ∧
    (∀ j, j < idx → (deleteAt l idx)[j]? = l[j]?) ∧
    (∀ j, idx ≤ j → (deleteAt l idx)[j]? = l[j + 1]?) := by
  rw [deleteAt_eq_take_drop]
  refine ⟨?_, ?_, ?_⟩
  · simp only [List.length_append, List.length_take, List.length_drop]
    omega
  · intro j hj
    rw [List.getElem?_append_left (by simp only [List.length_take]; omega)]
    simp [List.getElem?_take, hj]
  · intro j hj
    rw [List.getElem?_append_right (by simp only [List.length_take]; omega)]
    rw [List.getElem?_drop]
    congr 1
    simp only [List.length_take]
    omega

/-- C5 witness: deleting index 1 from a three-element sequence leaves two
elements, position 0 unchanged and position 1 holding the old element 2. -/
theorem c5_deleteAt_spec_witness :
    (deleteAt [(10 : ℚ), 20, 30] 1).length = 2 ∧
    (deleteAt [(10 : ℚ), 20, 30] 1)[0]? = [(10 : ℚ), 20, 30][0]? ∧
    (deleteAt [(10 : ℚ), 20, 30] 1)[1]? = [(10 : ℚ), 20, 30][2]? := by
  obtain ⟨h1, h2, h3⟩ := c5_deleteAt_spec [(10 : ℚ), 20, 30] 1 (by decide)
  exact ⟨h1, h2 0 (by decide), h3 1 (by decide)⟩

/-- C7 counterexample: get_monthly_data is not side-effect free — on a
frame holding one expense with an unparsed date it changes its input
frame (the date column is converted to datetime in place). -/
theorem c7_get_monthly_data_mutates :
    (get_monthly_data [⟨PyDate.str 2024 1 5, "Food", 250, ""⟩]).2 ≠
      [⟨PyDate.str 2024 1 5, "Food", 250, ""⟩] := by
  decide

/-- C7 (amended): the value of get_monthly_data is a pure function of its
input, and its only effect on the input frame is the in-place to_datetime
conversion of the date column — row count, denoted calendar days,
categories, amounts and descriptions are unchanged. -/
theorem c7_get_monthly_data_frame (df : List Expense) :
    (get_monthly_data df).1 = (df.map fun e => e.amount).sum ∧
    (get_monthly_data df).2 = (df.map fun e => { e with date := to_datetime e.date }) ∧
    ((get_monthly_data df).2.map fun e => (e.date.ymd, e.category, e.amount, e.description)) =
      (df.map fun e => (e.date.ymd, e.category, e.amount, e.description)) := by
  have h2 : (get_monthly_data df).2 =
      df.map fun e => { e with date := to_datetime e.date } := by
    cases df with
    | nil => rfl
    | cons x xs => simp [get_monthly_data]
  refine ⟨get_monthly_data_val df, h2, ?_⟩
  rw [h2, List.map_map]
  exact List.map_congr_left fun e _ => by simp [Function.comp, to_datetime_ymd]

/-- C9: a new user loaded with the store unreachable gets empty expense and
income sequences, the default budget of exactly 8 categories, exactly 2
seeded savings goals, and a profile named from the email; adding the
expense (2024-01-05, Food, 250) and grouping the resulting expense
sequence by category yields exactly Food ↦ 250. -/
theorem c9_new_user_scenario (today : String) :
    (load_unavailable none ("a@b.com").data today).expenses = [] ∧
    (load_unavailable none ("a@b.com").data today).income = [] ∧
    (load_unavailable none ("a@b.com").data today).budget.length = 8 ∧
    (load_unavailable none ("a@b.com").data today).savings_goals.length = 2 ∧
    (load_unavailable none ("a@b.com").data today).user_profile.name = "a" ∧
    expenses_by_category (add_expense (load_unavailable none ("a@b.com").data today)
      (PyDate.str 2024 1 5) "Food" 250 "").expenses = [("Food", 250)] := by
  refine ⟨rfl, rfl, rfl, rfl, rfl, ?_⟩
  have he : (add_expense (load_unavailable none ("a@b.com").data today)
      (PyDate.str 2024 1 5) "Food" 250 "").expenses =
      [⟨PyDate.str 2024 1 5, "Food", 250, ""⟩] := rfl
  rw [he]
  with_unfolding_all decide

/-- C10: with an empty expense frame generate_ai_insights returns no
observations regardless of the income frame; with a nonempty frame it
returns two or three observations, the savings-rate observation appearing
exactly when total income is strictly positive. -/
theorem c10_insights_spec (expenses : List Expense) (income : List Income) :
    (expenses = [] → generate_ai_insights expenses income = []) ∧
    (expenses ≠ [] →
      ((generate_ai_insights expenses income).length =
        if (income.map fun r => r.amount).sum > 0 then 3 else 2) ∧
      ((Insight.increaseSavings ∈ generate_ai_insights expenses income ∨
          ∃ s, Insight.greatSavings s ∈ generate_ai_insights expenses income) ↔
        (income.map fun r => r.amount).sum > 0)) := by
  constructor
  · intro h
    simp [generate_ai_insights, h]
  · intro h
    obtain ⟨x, xs, rfl⟩ := List.exists_cons_of_ne_nil h
    simp only [generate_ai_insights, if_neg (List.cons_ne_nil x xs),
      get_monthly_data_income_val]
    by_cases hpos : (income.map fun r => r.amount).sum > 0
    · rw [if_pos hpos, if_pos hpos]
      constructor
      · split <;> simp
      · refine iff_of_true ?_ hpos
        split
        · exact Or.inl (List.mem_append_right _ (List.mem_cons_self _ _))
        · exact Or.inr ⟨_, List.mem_append_right _ (List.mem_cons_self _ _)⟩
    · rw [if_neg hpos, if_neg hpos]
      refine ⟨by simp, iff_of_false ?_ hpos⟩
      rintro (hmem | ⟨s, hmem⟩) <;> simp_all

/-- C10 witness: empty expenses give no insights; one expense with one
positive income row gives three insights. -/
theorem c10_insights_spec_witness :
    generate_ai_insights [] [sampleIncome] = [] ∧
    (generate_ai_insights [sampleExpense] [sampleIncome]).length =
      (if (([sampleIncome].map fun r => r.amount).sum : ℚ) > 0 then 3 else 2) :=
  ⟨(c10_insights_spec [] [sampleIncome]).1 rfl,
   ((c10_insights_spec [sampleExpense] [sampleIncome]).2 (by decide)).1⟩

end FinTrack
